import Mathlib

/-!
Shallow embedding of the core of `services/telegram.go` (auth orchestration
state machine, readiness gate, peer resolution and peer cache) together with
theorems settling the specification claims about it.

Conventions of the embedding:
* Go machine integers (`int64`) are modelled as `Int` with the explicit
  `2^63` range bounds where the source checks them (`strconv.ParseInt`).
* The mutable pair `authState` / `authErrorMsg` (guarded by `authMu`) is an
  `AuthStore` record; `setAuthState` rewrites both fields together, as the
  source does under the mutex.
* Concurrency outcomes that the Go code observes through channels and the
  condition variable (whether the auth flow receives a hand-off within the
  30-second `select` bound, the sequence of states observed at each
  condition-variable wake-up) are passed in explicitly as a `SubmitEnv`
  record, so each submit call is a pure function of the state it reads and
  of those externally determined outcomes.
* Fallible Go functions returning `(T, error)` become `T × Option String`
  (the `Option String` is the error message), and a call that can block
  forever becomes an `Option` result, `none` meaning the call never returns.
-/

namespace TelegramMCP

/-- `type AuthState string` with its five constants
(`services/telegram.go:28-36`). -/
inductive AuthState where
  | connecting
  | waitingCode
  | waitingPassword
  | authenticated
  | error
  deriving DecidableEq, Repr

/-- The Go string value of each `AuthState` constant. -/
def authStateString : AuthState → String
  | .connecting => "connecting"
  | .waitingCode => "waiting_code"
  | .waitingPassword => "waiting_password"
  | .authenticated => "authenticated"
  | .error => "error"

/-- The mutex-guarded mutable pair `authState` / `authErrorMsg`
(`services/telegram.go:49-52`). -/
structure AuthStore where
  state : AuthState
  errMsg : String
  deriving DecidableEq, Repr

/-- Initial values: `authState = AuthStateConnecting`, `authErrorMsg = ""`
(`services/telegram.go:51-52`). -/
def initialAuthStore : AuthStore := { state := .connecting, errMsg := "" }

/-- `setAuthState(s, errMsg)` (`services/telegram.go:63-69`): under the mutex,
write the state and the error message together, then broadcast. -/
def setAuthState (s : AuthState) (errMsg : String) (_st : AuthStore) : AuthStore :=
  { state := s, errMsg := errMsg }

/-- The four `setAuthState` call sites in the source, as events:
`mcpAuth.Code` sets `(WaitingCode, "")` (line 179), `mcpAuth.Password` sets
`(WaitingPassword, "")` (line 189), `StartTelegram` sets
`(Error, err.Error())` on auth failure (line 260) and
`(Authenticated, "")` on success (line 278). -/
inductive AuthEvent where
  | toWaitingCode
  | toWaitingPassword
  | toError (msg : String)
  | toAuthenticated
  deriving DecidableEq, Repr

/-- Apply one `setAuthState` call site to the store. -/
def applyAuthEvent (st : AuthStore) (e : AuthEvent) : AuthStore :=
  match e with
  | .toWaitingCode => setAuthState .waitingCode "" st
  | .toWaitingPassword => setAuthState .waitingPassword "" st
  | .toError msg => setAuthState .error msg st
  | .toAuthenticated => setAuthState .authenticated "" st

/-- The store after a sequence of `setAuthState` calls, starting from the
initial values: every reachable value of the mutable pair. -/
def runAuthEvents (events : List AuthEvent) : AuthStore :=
  events.foldl applyAuthEvent initialAuthStore

/-- `waitAuthStateChange(from)` (`services/telegram.go:83-90`): the caller
re-checks the state at each condition-variable wake-up and returns the first
observed store whose state differs from `from`. `wakes` is the sequence of
store values observed at each check (the first element is the value read on
entry); `none` models a call that blocks forever because the state never
changes. -/
def waitAuthStateChange (fromState : AuthState) (wakes : List AuthStore) :
    Option AuthStore :=
  wakes.find? (fun w => decide (w.state ≠ fromState))

/-- The 30-second bound of the hand-off `select`
(`time.After(30 * time.Second)`, `services/telegram.go:99` and `:116`). -/
def handoffTimeoutSeconds : Nat := 30

/-- Externally determined concurrency outcomes observed by one
`SubmitCode` / `SubmitPassword` call:
* `handoffDelay`: seconds until the parked auth-flow callback performs the
  matching channel receive (`none`: it never does);
* `stateAtTimeout`: the value `GetAuthState()` reads on the timeout return
  path (line 100 / 117);
* `wakes`: the store values observed at each wake-up inside
  `waitAuthStateChange`. -/
structure SubmitEnv where
  handoffDelay : Option Nat
  stateAtTimeout : AuthState
  wakes : List AuthStore
  deriving Repr

/-- The unbuffered-channel `select` (`services/telegram.go:97-101`): the send
wins exactly when the receiver arrives strictly before the 30-second timer
fires. -/
def handoffAccepted (env : SubmitEnv) : Bool :=
  match env.handoffDelay with
  | some d => decide (d < handoffTimeoutSeconds)
  | none => false

/-- `SubmitCode(code)` (`services/telegram.go:92-107`) as a function of the
state it reads and of the concurrency outcomes. It performs no `setAuthState`
call, so it never changes the store. Result `none` models a call that blocks
forever in `waitAuthStateChange`; `some (st, err?)` mirrors the Go return
`(AuthState, error)`. -/
def SubmitCode (current : AuthState) (env : SubmitEnv) :
    Option (AuthState × Option String) :=
  if current ≠ .waitingCode then
    some (current, some ("not waiting for code, current state: " ++
      authStateString current))
  else if handoffAccepted env then
    match waitAuthStateChange .waitingCode env.wakes with
    | none => none
    | some w =>
      if w.state = .error then some (w.state, some w.errMsg)
      else some (w.state, none)
  else
    some (env.stateAtTimeout, some "timeout: auth flow not accepting code")

/-- `SubmitPassword(password)` (`services/telegram.go:109-124`), symmetric to
`SubmitCode`, gated on `WaitingPassword`. -/
def SubmitPassword (current : AuthState) (env : SubmitEnv) :
    Option (AuthState × Option String) :=
  if current ≠ .waitingPassword then
    some (current, some ("not waiting for password, current state: " ++
      authStateString current))
  else if handoffAccepted env then
    match waitAuthStateChange .waitingPassword env.wakes with
    | none => none
    | some w =>
      if w.state = .error then some (w.state, some w.errMsg)
      else some (w.state, none)
  else
    some (env.stateAtTimeout, some "timeout: auth flow not accepting password")

/-! ### Auth-flow executions and the state-transition relation

`client.Auth().IfNecessary(ctx, flow)` (`services/telegram.go:259`) drives the
`mcpAuth` callbacks from its own goroutine.  The shapes the gotd flow can
take are: authorize from the cached session or fail before any callback
(`immediate`); request a one-time code (`codeOnly`); request a code and then
a 2FA password (`codeThenPassword`) — in each case ending in success
(`.ok ()`) or in an error that `StartTelegram` records with
`setAuthState(AuthStateError, err.Error())` (line 260). -/

/-- One execution shape of the external auth flow, with its final result. -/
inductive FlowScript where
  | immediate (result : Except String Unit)
  | codeOnly (result : Except String Unit)
  | codeThenPassword (result : Except String Unit)
  deriving Repr

/-- The final result of a flow script. -/
def FlowScript.result : FlowScript → Except String Unit
  | .immediate r => r
  | .codeOnly r => r
  | .codeThenPassword r => r

/-- The states the flow's callbacks pass through before the flow finishes:
`mcpAuth.Code` sets `WaitingCode` (line 179), `mcpAuth.Password` sets
`WaitingPassword` (line 189). -/
def FlowScript.callbackStates : FlowScript → List AuthState
  | .immediate _ => []
  | .codeOnly _ => [.waitingCode]
  | .codeThenPassword _ => [.waitingCode, .waitingPassword]

/-- The sequence of `authState` values in one execution of
`StartTelegram`'s run body (`services/telegram.go:256-284`): start at
`Connecting`; each callback sets its waiting state; on flow error the body
sets `Error` (line 260); on flow success it sets `Authenticated` (line 278)
unless `client.Self` failed first (line 264-267), in which case no further
state is set. -/
def authTrace (fs : FlowScript) (selfOk : Bool) : List AuthState :=
  AuthState.connecting :: fs.callbackStates ++
    (match fs.result with
     | .error _ => [AuthState.error]
     | .ok _ => if selfOk then [AuthState.authenticated] else [])

/-- The consecutive pairs of a state sequence: the transitions taken. -/
def transitionsOf : List AuthState → List (AuthState × AuthState)
  | [] => []
  | [_] => []
  | a :: b :: rest => (a, b) :: transitionsOf (b :: rest)

/-- The transition table of the specification (§4.2). -/
def documentedEdges : List (AuthState × AuthState) :=
  [(.connecting, .authenticated), (.connecting, .waitingCode),
   (.waitingCode, .waitingPassword), (.waitingCode, .authenticated),
   (.waitingCode, .error),
   (.waitingPassword, .authenticated), (.waitingPassword, .error)]

/-! ### Session bootstrap and the readiness gate -/

/-- Opaque handle types published by the bootstrap: the API client, the
execution context, the logged-in user, the resolver cache and the pebble
peer storage. -/
inductive TGClient where | mk deriving DecidableEq, Repr

/-- Execution-context handle. -/
inductive ExecCtx where | mk deriving DecidableEq, Repr

/-- Logged-in-user handle (`client.Self`). -/
inductive TGUser where | mk deriving DecidableEq, Repr

/-- Resolver-cache handle (`storage.NewResolverCache`). -/
inductive TGResolver where | mk deriving DecidableEq, Repr

/-- Peer-storage handle (`pebble.NewPeerStorage`). -/
inductive TGPeerDB where | mk deriving DecidableEq, Repr

/-- The package-level resource variables published through the readiness
gate (`services/telegram.go:38-43`), all initially nil. -/
structure Globals where
  telegramAPI : Option TGClient
  telegramCtx : Option ExecCtx
  selfUser : Option TGUser
  peerResolver : Option TGResolver
  peerDB : Option TGPeerDB
  deriving DecidableEq, Repr

/-- All-nil initial resource variables. -/
def initialGlobals : Globals := ⟨none, none, none, none, none⟩

/-- The one-shot ready signal: `ready` channel + `readyOnce`
(`services/telegram.go:44-45`). `fired` counts how many times the channel
was actually closed; `onceUsed` is the `sync.Once` flag. -/
structure Gate where
  fired : Nat
  onceUsed : Bool
  deriving DecidableEq, Repr

/-- `readyOnce.Do(func() { close(ready) })`: closes the channel only the
first time. -/
def fireReadyOnce (g : Gate) : Gate :=
  if g.onceUsed then g else { fired := g.fired + 1, onceUsed := true }

/-- How one call to `StartTelegram` ends: `failed msg` is a return with a
startup error before the ready publication of resources; `cancelled` is the
success path, which publishes the resources, fires the ready signal and then
blocks on `ctx.Done()` until the surrounding context ends
(`services/telegram.go:281-282`). -/
inductive BootResult where
  | failed (msg : String)
  | cancelled
  deriving Repr

/-- Whether the bootstrap ended in a startup failure. -/
def BootResult.isFailed : BootResult → Bool
  | .failed _ => true
  | .cancelled => false

/-- Externally determined outcomes of one `StartTelegram` run:
`TELEGRAM_API_ID` parses (line 209), `TELEGRAM_SESSION_DIR` is set /
`os.UserHomeDir` succeeds (lines 217-225), `os.MkdirAll` succeeds
(line 226), `pebbledb.Open` succeeds (line 236), the shape and result of the
auth flow, and whether `client.Self` succeeds (line 264). -/
structure BootEnv where
  apiIDValid : Bool
  sessionDirSet : Bool
  homeDirOk : Bool
  mkdirOk : Bool
  pebbleOpenOk : Bool
  flow : FlowScript
  selfOk : Bool
  deriving Repr

/-- `StartTelegram(ctx)` (`services/telegram.go:206-285`) as a function of
the externally determined outcomes, returning the final resource variables,
the final gate and how the call ended.  The deferred
`readyOnce.Do(func() { close(ready) })` (line 207) runs on every return
path; the success path additionally fires it from the body (line 279) after
publishing the resources.  Note `peerDB` is assigned (line 241) as soon as
the pebble store opens, before the auth flow runs. -/
def StartTelegram (env : BootEnv) : Globals × Gate × BootResult :=
  let gate0 : Gate := ⟨0, false⟩
  if ¬env.apiIDValid then
    (initialGlobals, fireReadyOnce gate0, .failed "invalid TELEGRAM_API_ID")
  else if ¬env.sessionDirSet ∧ ¬env.homeDirOk then
    (initialGlobals, fireReadyOnce gate0,
      .failed "cannot determine home directory")
  else if ¬env.mkdirOk then
    (initialGlobals, fireReadyOnce gate0, .failed "create session dir")
  else if ¬env.pebbleOpenOk then
    (initialGlobals, fireReadyOnce gate0, .failed "open peer storage")
  else
    let g1 : Globals := { initialGlobals with peerDB := some TGPeerDB.mk }
    match env.flow.result with
    | .error m => (g1, fireReadyOnce gate0, .failed ("auth: " ++ m))
    | .ok _ =>
      if ¬env.selfOk then (g1, fireReadyOnce gate0, .failed "get self")
      else
        let g2 : Globals := { g1 with
          telegramAPI := some TGClient.mk,
          telegramCtx := some ExecCtx.mk,
          selfUser := some TGUser.mk,
          peerResolver := some TGResolver.mk }
        let gate1 := fireReadyOnce gate0
        (g2, fireReadyOnce gate1, .cancelled)

/-- Outcome of a readiness-gate accessor call: still blocked on `<-ready`,
fatal panic (`"Telegram client not initialized"`), or a returned resource. -/
inductive Access (α : Type) where
  | blocked
  | fatalNotInitialized
  | value (a : α)
  deriving DecidableEq, Repr

/-- The accessor pattern shared by `API`, `PeerStorage`, `Resolver`, `Self`
and `Context` (`services/telegram.go:130-168`): block until the ready signal
fired, then panic if the resource variable is still nil, else return it. -/
def accessGate {α : Type} (readyFired : Bool) (res : Option α) : Access α :=
  if ¬readyFired then .blocked
  else match res with
    | none => .fatalNotInitialized
    | some r => .value r

/-- `API()` (`services/telegram.go:130-136`). -/
def API (g : Globals) (gate : Gate) : Access TGClient :=
  accessGate gate.onceUsed g.telegramAPI

/-- `PeerStorage()` (`services/telegram.go:138-144`). -/
def PeerStorage (g : Globals) (gate : Gate) : Access TGPeerDB :=
  accessGate gate.onceUsed g.peerDB

/-- `Resolver()` (`services/telegram.go:146-152`). -/
def Resolver (g : Globals) (gate : Gate) : Access TGResolver :=
  accessGate gate.onceUsed g.peerResolver

/-- `Self()` (`services/telegram.go:154-160`). -/
def Self (g : Globals) (gate : Gate) : Access TGUser :=
  accessGate gate.onceUsed g.selfUser

/-- `Context()` (`services/telegram.go:162-168`). -/
def Context (g : Globals) (gate : Gate) : Access ExecCtx :=
  accessGate gate.onceUsed g.telegramCtx

/-! ### Peer cache and peer resolution -/

/-- `dialogs.PeerKind`: `User` is 0, `Chat` is 1, `Channel` is 2 — the kinds
probed in that numeric order by `GetInputPeerByID`
(`services/telegram.go:291`). -/
inductive PeerKind where
  | user
  | chat
  | channel
  deriving DecidableEq, Repr

/-- `storage.PeerKey`: a (kind, 64-bit id) pair keying one cache entry. -/
def PeerKey : Type := PeerKind × Int

instance : DecidableEq PeerKey := instDecidableEqProd

/-- A cached peer entry, as far as resolution observes it: its kind and
numeric id (`storage.Peer`, keyed by `Peer.Key()`). -/
structure Peer where
  kind : PeerKind
  id : Int
  deriving DecidableEq, Repr

/-- The `(kind, id)` key under which `PeerStorage.Add` stores a peer. -/
def peerKeyOf (p : Peer) : PeerKey := (p.kind, p.id)

/-- `tg.InputPeerClass`: the protocol-native handle a resolution returns. -/
inductive InputPeerClass where
  | inputPeerUser (id : Int)
  | inputPeerChat (id : Int)
  | inputPeerChannel (id : Int)
  deriving DecidableEq, Repr

/-- `storage.Peer.AsInputPeer()`: the input-peer handle of a stored entry. -/
def Peer.asInputPeer (p : Peer) : InputPeerClass :=
  match p.kind with
  | .user => .inputPeerUser p.id
  | .chat => .inputPeerChat p.id
  | .channel => .inputPeerChannel p.id

/-- The peer cache contents: what `PeerStorage.Find` returns for each key
(`none` is the not-found miss). -/
def Cache : Type := PeerKey → Option Peer

/-- A cache with no entries. -/
def emptyCache : Cache := fun _ => none

/-- `PeerStorage.Add`: unconditionally overwrite the entry at the peer's
derived `(kind, id)` key. -/
def insertPeer (c : Cache) (p : Peer) : Cache :=
  fun k => if peerKeyOf p = k then some p else c k

/-- The fixed probe order of `GetInputPeerByID`'s loop
`for kind := 0; kind <= 2; kind++` (`services/telegram.go:291`). -/
def probeKinds : List PeerKind := [.user, .chat, .channel]

/-- The loop body of `GetInputPeerByID`: probe the cache at `(kind, id)` for
each kind in order, returning the first hit. -/
def findFirstKind (c : Cache) (chatID : Int) : List PeerKind → Option Peer
  | [] => none
  | k :: ks =>
    match c (k, chatID) with
    | some p => some p
    | none => findFirstKind c chatID ks

/-- `GetInputPeerByID(ctx, chatID)` (`services/telegram.go:287-298`): probe
the cache for all three kinds in order; return the first hit's input peer,
or the not-found error.  It consults only the cache — no network oracle is
even in scope. -/
def GetInputPeerByID (c : Cache) (chatID : Int) :
    Except String InputPeerClass :=
  match findFirstKind c chatID probeKinds with
  | some p => .ok p.asInputPeer
  | none => .error ("peer " ++ toString chatID ++ " not found in local storage")

/-- `strconv.ParseInt(identifier, 10, 64)` (`services/telegram.go:313`):
an optional single sign, then one or more ASCII decimal digits, value within
the signed 64-bit range; anything else is a parse error (`none`). -/
def parseInt64 (s : String) : Option Int :=
  match s.data with
  | [] => none
  | c :: cs =>
    let neg : Bool := c = '-'
    let ds : List Char := if c = '-' ∨ c = '+' then cs else c :: cs
    if ds = [] then none
    else if ds.all Char.isDigit then
      let n : Nat := ds.foldl (fun a d => a * 10 + (d.toNat - 48)) 0
      if neg then
        if n ≤ 2 ^ 63 then some (-(n : Int)) else none
      else
        if n ≤ 2 ^ 63 - 1 then some (n : Int) else none
    else none

/-- `strings.HasPrefix(s, "@")`: the string begins with the name sigil. -/
def hasAtSigil (s : String) : Bool :=
  match s.data with
  | c :: _ => c = '@'
  | [] => false

/-- `strings.TrimPrefix(s, "@")`: remove one leading `@`, if present. -/
def stripAtSigil (s : String) : String :=
  match s.data with
  | '@' :: rest => String.mk rest
  | _ => s

/-- The live directory lookup behind `Resolver().ResolveDomain`
(`services/telegram.go:302`): the session client is a black box, so it is an
oracle from a bare name to a handle or an error. -/
def Net : Type := String → Except String InputPeerClass

/-- `ResolveUsername(ctx, username)` (`services/telegram.go:300-307`): strip
one leading `@` (`strings.TrimPrefix`), query the directory, and wrap a
failure as `resolve @<name>: <err>`. -/
def ResolveUsername (net : Net) (username : String) :
    Except String InputPeerClass :=
  let uname := stripAtSigil username
  match net uname with
  | .ok p => .ok p
  | .error e => .error ("resolve @" ++ uname ++ ": " ++ e)

/-- `ResolvePeer(ctx, identifier)` (`services/telegram.go:309-318`): a
leading `@` dispatches to name resolution; otherwise a string that parses as
a signed 64-bit integer dispatches to cache-only id resolution; otherwise
fall back to name resolution on the bare string. -/
def ResolvePeer (net : Net) (c : Cache) (identifier : String) :
    Except String InputPeerClass :=
  if hasAtSigil identifier then ResolveUsername net identifier
  else
    match parseInt64 identifier with
    | some id => GetInputPeerByID c id
    | none => ResolveUsername net identifier

/-! ### Storing observed peers -/

/-- `tg.ChatClass`: the chat-like entity classes a remote response can
carry. -/
inductive ChatClass where
  | chatEmpty (id : Int)
  | chat (id : Int)
  | chatForbidden (id : Int)
  | channel (id : Int)
  | channelForbidden (id : Int)
  deriving DecidableEq, Repr

/-- `tg.UserClass`: user or empty-user. -/
inductive UserClass where
  | userEmpty (id : Int)
  | user (id : Int)
  deriving DecidableEq, Repr

/-- `storage.Peer.FromChat` (gotd contrib, external collaborator): fills the
entry for a `*tg.Chat` (kind `Chat`) or a `*tg.Channel` (kind `Channel`) and
reports `true`; any other class reports `false`. -/
def fromChat : ChatClass → Option Peer
  | .chat id => some ⟨.chat, id⟩
  | .channel id => some ⟨.channel, id⟩
  | _ => none

/-- `storage.Peer.FromUser` (gotd contrib, external collaborator): fills the
entry for a non-empty `*tg.User` and reports `true`; `UserEmpty` reports
`false`. -/
def fromUser : UserClass → Option Peer
  | .user id => some ⟨.user, id⟩
  | .userEmpty _ => none

/-- `StorePeers(ctx, chats, users)` (`services/telegram.go:321-335`): for
each chat then each user, derive the cache entry with `FromChat` /
`FromUser`; entities that do not convert are skipped; for the rest,
`db.Add` is called and its error discarded (`_ = db.Add(ctx, p)`).
`writeFails` says which individual `Add` calls fail; a failed write leaves
the cache unchanged for that entity.  The function returns only the cache:
like the Go `func` with no results, it reports nothing to its caller. -/
def StorePeers (writeFails : Peer → Bool) (c : Cache)
    (chats : List ChatClass) (users : List UserClass) : Cache :=
  let c1 := chats.foldl (fun acc ch =>
    match fromChat ch with
    | some p => if writeFails p then acc else insertPeer acc p
    | none => acc) c
  users.foldl (fun acc u =>
    match fromUser u with
    | some p => if writeFails p then acc else insertPeer acc p
    | none => acc) c1

/-! ## Theorems settling the claims -/

/-- C4: for every input string and every auth state `s`, `SubmitCode` called
while `s ≠ WaitingCode` fails immediately with the invalid-state error,
without blocking (its outcome is a `some` that does not depend on any of the
concurrency outcomes) and without touching the auth store (it returns the
state it read and performs no `setAuthState`); symmetrically `SubmitPassword`
gated on `WaitingPassword`. -/
theorem C4_submit_gate (s : AuthState) (env : SubmitEnv) :
    (s ≠ AuthState.waitingCode →
      SubmitCode s env =
        some (s, some ("not waiting for code, current state: " ++
          authStateString s)) ∧
      ∀ env' : SubmitEnv, SubmitCode s env' = SubmitCode s env) ∧
    (s ≠ AuthState.waitingPassword →
      SubmitPassword s env =
        some (s, some ("not waiting for password, current state: " ++
          authStateString s)) ∧
      ∀ env' : SubmitEnv, SubmitPassword s env' = SubmitPassword s env) := by
  constructor
  · intro h
    exact ⟨by simp [SubmitCode, h], fun env' => by simp [SubmitCode, h]⟩
  · intro h
    exact ⟨by simp [SubmitPassword, h], fun env' => by simp [SubmitPassword, h]⟩

/-- Witness for C4 at concrete states and environments. -/
theorem C4_submit_gate_witness :
    SubmitCode AuthState.connecting ⟨none, AuthState.connecting, []⟩ =
      some (AuthState.connecting, some ("not waiting for code, current state: " ++
        authStateString AuthState.connecting)) ∧
    SubmitPassword AuthState.authenticated ⟨none, AuthState.authenticated, []⟩ =
      some (AuthState.authenticated, some ("not waiting for password, current state: " ++
        authStateString AuthState.authenticated)) :=
  ⟨((C4_submit_gate AuthState.connecting ⟨none, AuthState.connecting, []⟩).1
      (by decide)).1,
   ((C4_submit_gate AuthState.authenticated ⟨none, AuthState.authenticated, []⟩).2
      (by decide)).1⟩

/-- C6: when the state gate passes, the hand-off send is bounded by the
30-second interval (`handoffTimeoutSeconds = 30`; the send wins exactly when
the flow receives within that bound); if the flow does not accept the value
in time the call fails with the timeout error; and once the hand-off is
accepted the rest of the call depends only on the observed state-change
wake-ups — no other part of the call is bounded by the interval. -/
theorem C6_handoff_timeout (env : SubmitEnv) :
    handoffTimeoutSeconds = 30 ∧
    (∀ d : Nat, env.handoffDelay = some d →
      (handoffAccepted env = true ↔ d < handoffTimeoutSeconds)) ∧
    (handoffAccepted env = false →
      SubmitCode AuthState.waitingCode env =
        some (env.stateAtTimeout, some "timeout: auth flow not accepting code") ∧
      SubmitPassword AuthState.waitingPassword env =
        some (env.stateAtTimeout,
          some "timeout: auth flow not accepting password")) ∧
    (∀ env' : SubmitEnv, handoffAccepted env = true →
      handoffAccepted env' = true → env'.wakes = env.wakes →
      SubmitCode AuthState.waitingCode env' =
        SubmitCode AuthState.waitingCode env ∧
      SubmitPassword AuthState.waitingPassword env' =
        SubmitPassword AuthState.waitingPassword env) := by
  refine ⟨rfl, ?_, ?_, ?_⟩
  · intro d hd
    simp [handoffAccepted, hd]
  · intro h
    exact ⟨by simp [SubmitCode, h], by simp [SubmitPassword, h]⟩
  · intro env' h h' hw
    constructor
    · simp [SubmitCode, h, h', waitAuthStateChange, hw]
    · simp [SubmitPassword, h, h', waitAuthStateChange, hw]

/-- Witness for C6 at concrete environments: a hand-off delayed 99 seconds
times out; two accepted hand-offs observing the same wake-ups agree. -/
theorem C6_handoff_timeout_witness :
    (handoffAccepted ⟨some 99, AuthState.connecting, []⟩ = true ↔
      99 < handoffTimeoutSeconds) ∧
    SubmitCode AuthState.waitingCode ⟨some 99, AuthState.connecting, []⟩ =
      some (AuthState.connecting, some "timeout: auth flow not accepting code") ∧
    SubmitCode AuthState.waitingCode ⟨some 5, AuthState.waitingCode, []⟩ =
      SubmitCode AuthState.waitingCode ⟨some 0, AuthState.connecting, []⟩ :=
  ⟨(C6_handoff_timeout ⟨some 99, AuthState.connecting, []⟩).2.1 99 rfl,
   ((C6_handoff_timeout ⟨some 99, AuthState.connecting, []⟩).2.2.1 (by decide)).1,
   ((C6_handoff_timeout ⟨some 0, AuthState.connecting, []⟩).2.2.2
      ⟨some 5, AuthState.waitingCode, []⟩ (by decide) (by decide) rfl).1⟩

/-- C7: when the hand-off succeeds, the call returns the first observed
state that differs from the gated state (so the returned state is never the
gated one); if that state is `Error` the call fails carrying exactly the
stored auth error message, otherwise it succeeds with the new state;
symmetrically for `SubmitPassword`. -/
theorem C7_wait_outcome (env : SubmitEnv) (w : AuthStore) :
    (handoffAccepted env = true →
      waitAuthStateChange AuthState.waitingCode env.wakes = some w →
      w.state ≠ AuthState.waitingCode ∧
      (w.state = AuthState.error →
        SubmitCode AuthState.waitingCode env = some (w.state, some w.errMsg)) ∧
      (w.state ≠ AuthState.error →
        SubmitCode AuthState.waitingCode env = some (w.state, none))) ∧
    (handoffAccepted env = true →
      waitAuthStateChange AuthState.waitingPassword env.wakes = some w →
      w.state ≠ AuthState.waitingPassword ∧
      (w.state = AuthState.error →
        SubmitPassword AuthState.waitingPassword env =
          some (w.state, some w.errMsg)) ∧
      (w.state ≠ AuthState.error →
        SubmitPassword AuthState.waitingPassword env = some (w.state, none))) := by
  constructor
  · intro ha hfind
    have hne : w.state ≠ AuthState.waitingCode := by
      have hfind' : env.wakes.find?
          (fun w => decide (w.state ≠ AuthState.waitingCode)) = some w := hfind
      simpa using List.find?_some hfind'
    refine ⟨hne, ?_, ?_⟩
    · intro he; simp [SubmitCode, ha, hfind, he]
    · intro he; simp [SubmitCode, ha, hfind, he]
  · intro ha hfind
    have hne : w.state ≠ AuthState.waitingPassword := by
      have hfind' : env.wakes.find?
          (fun w => decide (w.state ≠ AuthState.waitingPassword)) = some w := hfind
      simpa using List.find?_some hfind'
    refine ⟨hne, ?_, ?_⟩
    · intro he; simp [SubmitPassword, ha, hfind, he]
    · intro he; simp [SubmitPassword, ha, hfind, he]

/-- Witness for C7: a rejected code moves the state to `Error` with message
`"bad code"` and `SubmitCode` reports exactly that message; an accepted
password moves the state to `Authenticated` and `SubmitPassword` succeeds. -/
theorem C7_wait_outcome_witness :
    SubmitCode AuthState.waitingCode
      ⟨some 0, AuthState.connecting, [⟨AuthState.error, "bad code"⟩]⟩ =
      some (AuthState.error, some "bad code") ∧
    SubmitPassword AuthState.waitingPassword
      ⟨some 0, AuthState.connecting, [⟨AuthState.authenticated, ""⟩]⟩ =
      some (AuthState.authenticated, none) :=
  ⟨((C7_wait_outcome ⟨some 0, AuthState.connecting, [⟨AuthState.error, "bad code"⟩]⟩
      ⟨AuthState.error, "bad code"⟩).1 (by decide) (by decide)).2.1 rfl,
   ((C7_wait_outcome ⟨some 0, AuthState.connecting, [⟨AuthState.authenticated, ""⟩]⟩
      ⟨AuthState.authenticated, ""⟩).2 (by decide) (by decide)).2.2 (by decide)⟩

/-- C8: in every reachable value of the auth store, the stored error string
is empty unless the state is `Error`; and every single `setAuthState` call
site preserves this by writing state and message together. -/
theorem C8_error_msg_invariant (events : List AuthEvent) :
    ((runAuthEvents events).state ≠ AuthState.error →
      (runAuthEvents events).errMsg = "") ∧
    (∀ (st : AuthStore) (e : AuthEvent),
      (applyAuthEvent st e).state ≠ AuthState.error →
      (applyAuthEvent st e).errMsg = "") := by
  have step : ∀ (st : AuthStore) (e : AuthEvent),
      (applyAuthEvent st e).state ≠ AuthState.error →
      (applyAuthEvent st e).errMsg = "" := by
    intro st e h
    cases e <;> simp_all [applyAuthEvent, setAuthState]
  refine ⟨?_, step⟩
  have main : ∀ (es : List AuthEvent) (st : AuthStore),
      (st.state ≠ AuthState.error → st.errMsg = "") →
      ((es.foldl applyAuthEvent st).state ≠ AuthState.error →
        (es.foldl applyAuthEvent st).errMsg = "") := by
    intro es
    induction es with
    | nil => intro st h; simpa using h
    | cons e es ih => intro st _h; exact ih (applyAuthEvent st e) (step st e)
  exact main events initialAuthStore (fun _ => rfl)

/-- Witness for C8 at a concrete event sequence and a concrete single
transition. -/
theorem C8_error_msg_invariant_witness :
    (runAuthEvents [AuthEvent.toError "boom", AuthEvent.toWaitingCode]).errMsg = "" ∧
    (applyAuthEvent ⟨AuthState.error, "boom"⟩ AuthEvent.toAuthenticated).errMsg = "" :=
  ⟨(C8_error_msg_invariant [AuthEvent.toError "boom", AuthEvent.toWaitingCode]).1
      (by decide),
   (C8_error_msg_invariant []).2 ⟨AuthState.error, "boom"⟩
      AuthEvent.toAuthenticated (by decide)⟩

/-- C1: id resolution probes the cache for `(User, id)`, `(Chat, id)`,
`(Channel, id)` in that fixed order and returns the first hit; with both
`(User, 42)` and `(Channel, 42)` cached, resolving `"42"` returns the user
entry; with no hit it fails with the not-found error; and on a numeric
identifier the resolver's result does not depend on the network oracle at
all. -/
theorem C1_id_resolution (c : Cache) (id : Int) :
    (∀ p : Peer, c (PeerKind.user, id) = some p →
      GetInputPeerByID c id = .ok p.asInputPeer) ∧
    (∀ p : Peer, c (PeerKind.user, id) = none →
      c (PeerKind.chat, id) = some p →
      GetInputPeerByID c id = .ok p.asInputPeer) ∧
    (∀ p : Peer, c (PeerKind.user, id) = none →
      c (PeerKind.chat, id) = none → c (PeerKind.channel, id) = some p →
      GetInputPeerByID c id = .ok p.asInputPeer) ∧
    (c (PeerKind.user, id) = none → c (PeerKind.chat, id) = none →
      c (PeerKind.channel, id) = none →
      GetInputPeerByID c id =
        .error ("peer " ++ toString id ++ " not found in local storage")) ∧
    (∀ (net : Net) (s : String), hasAtSigil s = false →
      parseInt64 s = some id → ResolvePeer net c s = GetInputPeerByID c id) ∧
    (∀ net : Net,
      ResolvePeer net
        (insertPeer (insertPeer emptyCache ⟨PeerKind.channel, 42⟩)
          ⟨PeerKind.user, 42⟩) "42" =
        .ok (Peer.asInputPeer ⟨PeerKind.user, 42⟩)) := by
  refine ⟨?_, ?_, ?_, ?_, ?_, ?_⟩
  · intro p hu
    simp [GetInputPeerByID, findFirstKind, probeKinds, hu]
  · intro p hu hc
    simp [GetInputPeerByID, findFirstKind, probeKinds, hu, hc]
  · intro p hu hc hch
    simp [GetInputPeerByID, findFirstKind, probeKinds, hu, hc, hch]
  · intro hu hc hch
    simp [GetInputPeerByID, findFirstKind, probeKinds, hu, hc, hch]
  · intro net s hs hp
    simp [ResolvePeer, hs, hp]
  · intro net
    rfl

/-- Witness for C1: first-hit on the user probe with both kinds cached at
id 42; not-found on the empty cache at id 999, independent of a network
oracle that would answer. -/
theorem C1_id_resolution_witness :
    GetInputPeerByID
      (insertPeer (insertPeer emptyCache ⟨PeerKind.channel, 42⟩)
        ⟨PeerKind.user, 42⟩) 42 =
      .ok (Peer.asInputPeer ⟨PeerKind.user, 42⟩) ∧
    GetInputPeerByID emptyCache 999 =
      .error ("peer " ++ toString (999 : Int) ++ " not found in local storage") ∧
    ResolvePeer (fun _ => .error "network unreachable") emptyCache "999" =
      GetInputPeerByID emptyCache 999 :=
  ⟨(C1_id_resolution
      (insertPeer (insertPeer emptyCache ⟨PeerKind.channel, 42⟩)
        ⟨PeerKind.user, 42⟩) 42).1 ⟨PeerKind.user, 42⟩ rfl,
   (C1_id_resolution emptyCache 999).2.2.2.1 rfl rfl rfl,
   (C1_id_resolution emptyCache 999).2.2.2.2.1
      (fun _ => .error "network unreachable") "999" rfl rfl⟩

/-- C5: the resolver dispatches on the identifier — a leading `@` goes to
name resolution, which consults the directory on the sigil-stripped string;
a string parsing as a signed 64-bit integer goes to cache-only id
resolution; any other string falls back to name resolution on the bare
string. -/
theorem C5_dispatch (net : Net) (c : Cache) (s : String) :
    (hasAtSigil s = true →
      ResolvePeer net c s = ResolveUsername net s ∧
      ResolveUsername net s =
        (match net (stripAtSigil s) with
         | .ok p => .ok p
         | .error e => .error ("resolve @" ++ stripAtSigil s ++ ": " ++ e))) ∧
    (∀ id : Int, hasAtSigil s = false → parseInt64 s = some id →
      ResolvePeer net c s = GetInputPeerByID c id) ∧
    (hasAtSigil s = false → parseInt64 s = none →
      ResolvePeer net c s = ResolveUsername net s) := by
  refine ⟨?_, ?_, ?_⟩
  · intro h
    exact ⟨by simp [ResolvePeer, h], rfl⟩
  · intro id h hp
    simp [ResolvePeer, h, hp]
  · intro h hp
    simp [ResolvePeer, h, hp]

/-- Witness for C5 on the identifiers `"@alice"`, `"42"` and `"bob"`. -/
theorem C5_dispatch_witness :
    ResolvePeer (fun _ => .ok (.inputPeerUser 7)) emptyCache "@alice" =
      ResolveUsername (fun _ => .ok (.inputPeerUser 7)) "@alice" ∧
    ResolvePeer (fun _ => .ok (.inputPeerUser 7)) emptyCache "42" =
      GetInputPeerByID emptyCache 42 ∧
    ResolvePeer (fun _ => .ok (.inputPeerUser 7)) emptyCache "bob" =
      ResolveUsername (fun _ => .ok (.inputPeerUser 7)) "bob" :=
  ⟨((C5_dispatch (fun _ => .ok (.inputPeerUser 7)) emptyCache "@alice").1
      rfl).1,
   (C5_dispatch (fun _ => .ok (.inputPeerUser 7)) emptyCache "42").2.1
      42 rfl rfl,
   (C5_dispatch (fun _ => .ok (.inputPeerUser 7)) emptyCache "bob").2.2
      rfl rfl⟩

/-- C2 counterexample: when the auth flow fails before requesting a code
(e.g. the connection or the code send fails), `StartTelegram` records the
error from the `Connecting` state, a `Connecting → Error` transition that is
not in the documented edge set. -/
theorem C2_counterexample :
    (AuthState.connecting, AuthState.error) ∈
      transitionsOf
        (authTrace (.immediate (.error "dial tcp: connection refused")) true) ∧
    (AuthState.connecting, AuthState.error) ∉ documentedEdges := by
  constructor
  · decide
  · decide

/-- C2 amended: every transition of the auth state follows an edge of the
documented table extended with `Connecting → Error` (the handshake can fail
before a code is ever requested), and `Error` is terminal: no transition
leaves it in any execution. -/
theorem C2_amended (fs : FlowScript) (selfOk : Bool) :
    (∀ e ∈ transitionsOf (authTrace fs selfOk),
      e ∈ (AuthState.connecting, AuthState.error) :: documentedEdges) ∧
    (∀ e ∈ transitionsOf (authTrace fs selfOk), e.1 ≠ AuthState.error) := by
  cases fs <;> rename_i r <;> cases r <;> cases selfOk <;>
    simp [authTrace, FlowScript.result, FlowScript.callbackStates,
      transitionsOf, documentedEdges]

/-- Witness for C2 amended at a concrete execution with a concrete
transition. -/
theorem C2_amended_witness :
    (AuthState.connecting, AuthState.waitingCode) ∈
      (AuthState.connecting, AuthState.error) :: documentedEdges ∧
    (AuthState.connecting, AuthState.error).1 ≠ AuthState.error :=
  ⟨(C2_amended (.codeOnly (.ok ())) true).1
      (AuthState.connecting, AuthState.waitingCode) (by decide),
   (C2_amended (.immediate (.error "timeout")) true).2
      (AuthState.connecting, AuthState.error) (by decide)⟩

/-- Whether `StartTelegram` gets as far as opening the pebble peer storage
and assigning `peerDB` (`services/telegram.go:236-241`) — this happens
before the auth flow runs. -/
def reachesPeerDB (env : BootEnv) : Bool :=
  env.apiIDValid && (env.sessionDirSet || env.homeDirOk) && env.mkdirOk &&
    env.pebbleOpenOk

/-- An accessor before the ready signal blocks. -/
theorem accessGate_blocked {α : Type} (res : Option α) :
    accessGate false res = Access.blocked := rfl

/-- An accessor never returns a resource out of a nil variable. -/
theorem accessGate_value_of_some {α : Type} (r : α) (res : Option α) :
    accessGate true res = Access.value r → res = some r := by
  cases res <;> simp [accessGate]

/-- The resource variables after the pebble store opened but before the
success publication: only `peerDB` is set. -/
def peerDBGlobals : Globals := { initialGlobals with peerDB := some TGPeerDB.mk }

/-- The resource variables after a fully successful bootstrap. -/
def fullGlobals : Globals :=
  ⟨some TGClient.mk, some ExecCtx.mk, some TGUser.mk, some TGResolver.mk,
    some TGPeerDB.mk⟩

/-- Closed form of `StartTelegram`'s observable outcome: the ready signal
fires exactly once on every path; a failed run leaves exactly the resources
assigned before the failure point (`peerDB` iff the pebble store opened);
a cancelled run published everything. -/
theorem startTelegram_spec (env : BootEnv) :
    (StartTelegram env).2.1 = ⟨1, true⟩ ∧
    ((StartTelegram env).2.2.isFailed = true →
      (StartTelegram env).1 =
        if reachesPeerDB env then peerDBGlobals else initialGlobals) ∧
    ((StartTelegram env).2.2 = BootResult.cancelled →
      (StartTelegram env).1 = fullGlobals ∧ reachesPeerDB env = true) := by
  unfold StartTelegram
  split
  · rename_i ha
    simp_all [reachesPeerDB, fireReadyOnce, BootResult.isFailed,
      Bool.not_eq_true]
  · rename_i ha
    split
    · rename_i hsd
      simp_all [reachesPeerDB, fireReadyOnce, BootResult.isFailed,
        Bool.not_eq_true, not_and_or]
    · rename_i hsd
      split
      · rename_i hmk
        simp_all [reachesPeerDB, fireReadyOnce, BootResult.isFailed,
          Bool.not_eq_true, not_and_or]
      · rename_i hmk
        split
        · rename_i hpb
          simp_all [reachesPeerDB, fireReadyOnce, BootResult.isFailed,
            Bool.not_eq_true, not_and_or]
        · rename_i hpb
          have hor : env.sessionDirSet = true ∨ env.homeDirOk = true := by
            by_contra hcon
            push_neg at hcon
            exact hsd ⟨hcon.1, hcon.2⟩
          split
          · rename_i m hm
            simp_all [reachesPeerDB, fireReadyOnce, BootResult.isFailed,
              peerDBGlobals, Bool.not_eq_true, not_and_or]
          · rename_i u hu
            split
            · rename_i hself
              simp_all [reachesPeerDB, fireReadyOnce, BootResult.isFailed,
                peerDBGlobals, Bool.not_eq_true, not_and_or]
            · rename_i hself
              simp_all [reachesPeerDB, fireReadyOnce, BootResult.isFailed,
                fullGlobals, Bool.not_eq_true, not_and_or]

/-- C3 counterexample: with valid config and an auth flow that fails (a
failed bootstrap), the peer-storage accessor does not raise the fatal
not-initialized error — it returns the handle of the pebble store that was
opened before authentication failed. -/
theorem C3_counterexample :
    (StartTelegram ⟨true, true, true, true, true,
      .immediate (.error "PHONE_NUMBER_INVALID"), true⟩).2.2.isFailed = true ∧
    PeerStorage
      (StartTelegram ⟨true, true, true, true, true,
        .immediate (.error "PHONE_NUMBER_INVALID"), true⟩).1
      (StartTelegram ⟨true, true, true, true, true,
        .immediate (.error "PHONE_NUMBER_INVALID"), true⟩).2.1 =
      Access.value TGPeerDB.mk ∧
    PeerStorage
      (StartTelegram ⟨true, true, true, true, true,
        .immediate (.error "PHONE_NUMBER_INVALID"), true⟩).1
      (StartTelegram ⟨true, true, true, true, true,
        .immediate (.error "PHONE_NUMBER_INVALID"), true⟩).2.1 ≠
      Access.fatalNotInitialized := by
  refine ⟨rfl, rfl, ?_⟩
  decide

/-- C3 amended: the ready signal fires exactly once whether bootstrap
succeeds or fails; accessors block until it fires and never return a
resource out of a nil variable; after a failed bootstrap the client,
context, self and resolver accessors raise the fatal not-initialized error —
but the peer-storage accessor does so only if the failure preceded the
opening of the peer database, and otherwise returns the already-opened
handle.  After a successful bootstrap every accessor returns its resource. -/
theorem C3_amended (env : BootEnv) :
    (StartTelegram env).2.1.fired = 1 ∧
    (StartTelegram env).2.1.onceUsed = true ∧
    (∀ (α : Type) (res : Option α), accessGate false res = Access.blocked) ∧
    (∀ (α : Type) (r : α) (res : Option α),
      accessGate true res = Access.value r → res = some r) ∧
    (∀ m : String, (StartTelegram env).2.2 = BootResult.failed m →
      API (StartTelegram env).1 (StartTelegram env).2.1 =
        Access.fatalNotInitialized ∧
      Context (StartTelegram env).1 (StartTelegram env).2.1 =
        Access.fatalNotInitialized ∧
      Self (StartTelegram env).1 (StartTelegram env).2.1 =
        Access.fatalNotInitialized ∧
      Resolver (StartTelegram env).1 (StartTelegram env).2.1 =
        Access.fatalNotInitialized ∧
      (reachesPeerDB env = false →
        PeerStorage (StartTelegram env).1 (StartTelegram env).2.1 =
          Access.fatalNotInitialized) ∧
      (reachesPeerDB env = true →
        PeerStorage (StartTelegram env).1 (StartTelegram env).2.1 =
          Access.value TGPeerDB.mk)) ∧
    ((StartTelegram env).2.2 = BootResult.cancelled →
      API (StartTelegram env).1 (StartTelegram env).2.1 =
        Access.value TGClient.mk ∧
      Context (StartTelegram env).1 (StartTelegram env).2.1 =
        Access.value ExecCtx.mk ∧
      Self (StartTelegram env).1 (StartTelegram env).2.1 =
        Access.value TGUser.mk ∧
      Resolver (StartTelegram env).1 (StartTelegram env).2.1 =
        Access.value TGResolver.mk ∧
      PeerStorage (StartTelegram env).1 (StartTelegram env).2.1 =
        Access.value TGPeerDB.mk) := by
  obtain ⟨h1, h2, h3⟩ := startTelegram_spec env
  refine ⟨by rw [h1], by rw [h1], fun α res => accessGate_blocked res,
    fun α r res => accessGate_value_of_some r res, ?_, ?_⟩
  · intro m hm
    have hglob := h2 (by rw [hm]; rfl)
    cases hr : reachesPeerDB env <;>
      rw [hr] at hglob <;>
      simp only [if_true, if_false, Bool.false_eq_true, ite_true, ite_false] at hglob <;>
      rw [hglob, h1] <;>
      simp [API, Context, Self, Resolver, PeerStorage, accessGate,
        initialGlobals, peerDBGlobals, hr]
  · intro hc
    obtain ⟨hglob, -⟩ := h3 hc
    rw [hglob, h1]
    simp [API, Context, Self, Resolver, PeerStorage, accessGate, fullGlobals]

/-- Witness for C3 amended: a bootstrap whose flow fails before the pebble
store could open leaves every accessor fatal; a successful bootstrap serves
the API client. -/
theorem C3_amended_witness :
    API (StartTelegram ⟨false, true, true, true, true,
        .immediate (.error "bad id"), true⟩).1
      (StartTelegram ⟨false, true, true, true, true,
        .immediate (.error "bad id"), true⟩).2.1 =
      Access.fatalNotInitialized ∧
    API (StartTelegram ⟨true, true, true, true, true,
        .codeOnly (.ok ()), true⟩).1
      (StartTelegram ⟨true, true, true, true, true,
        .codeOnly (.ok ()), true⟩).2.1 = Access.value TGClient.mk :=
  ⟨((C3_amended ⟨false, true, true, true, true,
      .immediate (.error "bad id"), true⟩).2.2.2.2.1
      "invalid TELEGRAM_API_ID" rfl).1,
   ((C3_amended ⟨true, true, true, true, true,
      .codeOnly (.ok ()), true⟩).2.2.2.2.2 rfl).1⟩

/-! ### Write-list view of `StorePeers`, for the idempotence proof -/

/-- Apply a list of cache overwrites in order. -/
def applyWrites (c : Cache) (ws : List Peer) : Cache :=
  ws.foldl insertPeer c

/-- The last write in `ws` whose derived key is `k`. -/
def lastKeyed (k : PeerKey) : List Peer → Option Peer
  | [] => none
  | p :: ps =>
    match lastKeyed k ps with
    | some q => some q
    | none => if peerKeyOf p = k then some p else none

/-- Pointwise value of a list of overwrites: the last write at the key wins,
and a key never written keeps its old entry. -/
theorem applyWrites_apply (ws : List Peer) :
    ∀ (c : Cache) (k : PeerKey),
      applyWrites c ws k =
        match lastKeyed k ws with
        | some q => some q
        | none => c k := by
  induction ws with
  | nil => intro c k; rfl
  | cons p ps ih =>
    intro c k
    have h : applyWrites c (p :: ps) k = applyWrites (insertPeer c p) ps k := rfl
    rw [h, ih (insertPeer c p) k]
    cases hlk : lastKeyed k ps
    · simp only [lastKeyed, hlk, insertPeer]
      split <;> rfl
    · simp [lastKeyed, hlk, insertPeer]

/-- The successful chat-derived writes of one `StorePeers` call, in order. -/
def chatWrites (writeFails : Peer → Bool) (chats : List ChatClass) : List Peer :=
  chats.filterMap (fun ch =>
    match fromChat ch with
    | some p => if writeFails p then none else some p
    | none => none)

/-- The successful user-derived writes of one `StorePeers` call, in order. -/
def userWrites (writeFails : Peer → Bool) (users : List UserClass) : List Peer :=
  users.filterMap (fun u =>
    match fromUser u with
    | some p => if writeFails p then none else some p
    | none => none)

/-- `StorePeers` is exactly the in-order application of its successful
derived writes. -/
theorem storePeers_eq_applyWrites (writeFails : Peer → Bool) (c : Cache)
    (chats : List ChatClass) (users : List UserClass) :
    StorePeers writeFails c chats users =
      applyWrites c (chatWrites writeFails chats ++ userWrites writeFails users) := by
  have hchat : ∀ (cs : List ChatClass) (c0 : Cache),
      cs.foldl (fun acc ch =>
        match fromChat ch with
        | some p => if writeFails p then acc else insertPeer acc p
        | none => acc) c0 = applyWrites c0 (chatWrites writeFails cs) := by
    intro cs
    induction cs with
    | nil => intro c0; rfl
    | cons ch cs ih =>
      intro c0
      cases hc : fromChat ch with
      | none => simp [chatWrites, hc, ih, applyWrites]
      | some p =>
        cases hw : writeFails p <;>
          simp [chatWrites, hc, hw, ih, applyWrites]
  have huser : ∀ (us : List UserClass) (c0 : Cache),
      us.foldl (fun acc u =>
        match fromUser u with
        | some p => if writeFails p then acc else insertPeer acc p
        | none => acc) c0 = applyWrites c0 (userWrites writeFails us) := by
    intro us
    induction us with
    | nil => intro c0; rfl
    | cons u us ih =>
      intro c0
      cases hu : fromUser u with
      | none => simp [userWrites, hu, ih, applyWrites]
      | some p =>
        cases hw : writeFails p <;>
          simp [userWrites, hu, hw, ih, applyWrites]
  calc StorePeers writeFails c chats users
      = applyWrites (applyWrites c (chatWrites writeFails chats))
          (userWrites writeFails users) := by
        rw [StorePeers, hchat chats c, huser]
    _ = applyWrites c (chatWrites writeFails chats ++ userWrites writeFails users) := by
        simp [applyWrites, List.foldl_append]

/-- C9: `StorePeers` is idempotent — whatever the starting cache, the
observed entities and the per-entity write outcomes (as long as a write's
outcome depends only on the entity), storing the same chats and users twice
leaves the cache exactly as storing them once: every derived `(kind, id)`
entry is overwritten, last observation wins. -/
theorem C9_storePeers_idempotent (writeFails : Peer → Bool) (c : Cache)
    (chats : List ChatClass) (users : List UserClass) :
    StorePeers writeFails (StorePeers writeFails c chats users) chats users =
      StorePeers writeFails c chats users := by
  rw [storePeers_eq_applyWrites writeFails c,
    storePeers_eq_applyWrites writeFails
      (applyWrites c (chatWrites writeFails chats ++ userWrites writeFails users))]
  funext k
  rw [applyWrites_apply, applyWrites_apply]
  cases hlk : lastKeyed k (chatWrites writeFails chats ++ userWrites writeFails users) <;>
    simp [hlk]

/-- C10: `StorePeers` reports nothing to its caller (its Go original has no
return values; here it yields only the cache), and both an entity that does
not convert to a cache entry and an entity whose individual cache write
fails are silently skipped: the resulting cache is exactly the one obtained
without that entity. -/
theorem C10_storePeers_skips_silently (writeFails : Peer → Bool) (c : Cache)
    (chats : List ChatClass) (users : List UserClass) (ch : ChatClass)
    (u : UserClass) (p : Peer) :
    (fromChat ch = none →
      StorePeers writeFails c (ch :: chats) users =
        StorePeers writeFails c chats users) ∧
    (fromChat ch = some p → writeFails p = true →
      StorePeers writeFails c (ch :: chats) users =
        StorePeers writeFails c chats users) ∧
    (fromUser u = none →
      StorePeers writeFails c chats (u :: users) =
        StorePeers writeFails c chats users) ∧
    (fromUser u = some p → writeFails p = true →
      StorePeers writeFails c chats (u :: users) =
        StorePeers writeFails c chats users) := by
  refine ⟨?_, ?_, ?_, ?_⟩
  · intro h
    simp [StorePeers, h]
  · intro h hw
    simp [StorePeers, h, hw]
  · intro h
    simp [StorePeers, h]
  · intro h hw
    simp [StorePeers, h, hw]

/-- Witness for C10: a `ChatEmpty` and a `UserEmpty` are skipped; a chat and
a user whose writes fail leave the cache as without them. -/
theorem C10_storePeers_skips_silently_witness :
    StorePeers (fun _ => false) emptyCache [ChatClass.chatEmpty 5] [] =
      StorePeers (fun _ => false) emptyCache [] [] ∧
    StorePeers (fun _ => true) emptyCache [ChatClass.chat 7] [] =
      StorePeers (fun _ => true) emptyCache [] [] ∧
    StorePeers (fun _ => false) emptyCache [] [UserClass.userEmpty 3] =
      StorePeers (fun _ => false) emptyCache [] [] ∧
    StorePeers (fun _ => true) emptyCache [] [UserClass.user 9] =
      StorePeers (fun _ => true) emptyCache [] [] :=
  ⟨(C10_storePeers_skips_silently (fun _ => false) emptyCache [] []
      (ChatClass.chatEmpty 5) (UserClass.userEmpty 3) ⟨PeerKind.chat, 5⟩).1 rfl,
   (C10_storePeers_skips_silently (fun _ => true) emptyCache [] []
      (ChatClass.chat 7) (UserClass.userEmpty 3) ⟨PeerKind.chat, 7⟩).2.1 rfl rfl,
   (C10_storePeers_skips_silently (fun _ => false) emptyCache [] []
      (ChatClass.chatEmpty 5) (UserClass.userEmpty 3) ⟨PeerKind.chat, 5⟩).2.2.1 rfl,
   (C10_storePeers_skips_silently (fun _ => true) emptyCache [] []
      (ChatClass.chat 7) (UserClass.user 9) ⟨PeerKind.user, 9⟩).2.2.2 rfl rfl⟩

end TelegramMCP
